import Mathlib

/-!
Verification of the Ainia adaptive personalization engine.

Shallow embedding of the adaptive core of the repository:
`src/ainia/core/multi_question_system.py`, `src/adaptive_system.py` and
`src/ainia/core/emotion_branching.py`.  Python floats are modelled as exact
rationals (`ℚ`); `float(...)` parsing is modelled by `pyFloat?` below, which
covers signs, decimal notation, exponents and the special values
`inf`/`infinity`/`nan` (IEEE rounding of long decimal literals and underscore
digit separators are abstracted away).  Python strings are modelled as Lean
`String`s; `str.lower` is modelled on the ASCII range.  Python dicts used as
records with `.get` defaults are modelled as structures with `Option` fields.
-/

namespace Ainia

/-! ### Python string primitives -/

/-- Characters stripped by Python `str.strip()`. -/
def pyIsSpace (c : Char) : Bool :=
  c == ' ' || c == '\t' || c == '\n' || c == '\r' || c == '\x0b' || c == '\x0c'

/-- Python `str.strip()` on a character list. -/
def pyStripList (s : List Char) : List Char :=
  ((s.dropWhile pyIsSpace).reverse.dropWhile pyIsSpace).reverse

/-- Python `str.strip()`. -/
def pyStrip (s : String) : String := ⟨pyStripList s.data⟩

/-- Python `str.lower()` (ASCII range). -/
def pyLower (s : String) : String := ⟨s.data.map Char.toLower⟩

/-- Does `hay` start with `needle`? -/
def listStartsWith : List Char → List Char → Bool
  | _, [] => true
  | [], _ :: _ => false
  | c :: cs, d :: ds => c == d && listStartsWith cs ds

/-- Contiguous-substring test on character lists. -/
def listContainsSub : List Char → List Char → Bool
  | [], needle => needle.isEmpty
  | c :: cs, needle => listStartsWith (c :: cs) needle || listContainsSub cs needle

/-- Python `needle in hay` for strings (contiguous substring). -/
def pyContains (hay needle : String) : Bool := listContainsSub hay.data needle.data

/-- Python `s.count(c)` for a single character. -/
def pyCountChar (s : String) (c : Char) : Nat := s.data.countP (fun d => d == c)

/-- Python `len(s)`. -/
def pyLen (s : String) : Nat := s.data.length

/-- Remove every (leftmost, non-overlapping) occurrence of `pat`; fuelled. -/
def removeSubAux : Nat → List Char → List Char → List Char
  | 0, _, _ => []
  | _ + 1, [], _ => []
  | fuel + 1, c :: cs, pat =>
    if listStartsWith (c :: cs) pat then
      removeSubAux fuel (List.drop (pat.length - 1) cs) pat
    else
      c :: removeSubAux fuel cs pat

/-- Python `s.replace(pat, "")`. -/
def pyRemoveSub (s pat : String) : String :=
  if pat.isEmpty then s else ⟨removeSubAux s.data.length s.data pat.data⟩

/-- Python `l[-n:]`: the last `n` elements (all of them when fewer). -/
def pyLastN (n : Nat) (l : List α) : List α := l.drop (l.length - n)

/-! ### Python `float(...)` -/

/-- A Python float value: a finite (exact rational) value, an infinity or NaN. -/
inductive PyFloat where
  | finite (q : ℚ)
  | infP
  | infN
  | nan
deriving DecidableEq

/-- Python `==` on floats: NaN is not equal to anything, including itself. -/
def pyFloatEq : PyFloat → PyFloat → Bool
  | .finite a, .finite b => a == b
  | .infP, .infP => true
  | .infN, .infN => true
  | _, _ => false

/-- Digits to a natural number. -/
def digitsToNat (ds : List Char) : Nat :=
  ds.foldl (fun a c => a * 10 + (c.toNat - '0'.toNat)) 0

/-- Parse an optional exponent suffix and apply it to mantissa `m`. -/
def parseExpSuffix (s : List Char) (m : ℚ) : Option ℚ :=
  match s with
  | [] => some m
  | 'e' :: rest =>
    let (sgn, ds) : ℤ × List Char :=
      match rest with
      | '+' :: ds => (1, ds)
      | '-' :: ds => (-1, ds)
      | ds => (1, ds)
    if !ds.isEmpty && ds.all Char.isDigit then
      some (m * (10 : ℚ) ^ (sgn * (digitsToNat ds : ℤ)))
    else none
  | _ => none

/-- Parse an unsigned decimal literal (digits, optional point, optional exponent). -/
def parseUnsignedFloat (s : List Char) : Option ℚ :=
  let (ip, rest) := s.span Char.isDigit
  match rest with
  | '.' :: rest2 =>
    let (fp, rest3) := rest2.span Char.isDigit
    if ip.isEmpty && fp.isEmpty then none
    else parseExpSuffix rest3 ((digitsToNat ip : ℚ) + (digitsToNat fp : ℚ) / (10 : ℚ) ^ fp.length)
  | _ => if ip.isEmpty then none else parseExpSuffix rest (digitsToNat ip : ℚ)

/-- Python `float(s)`: `some` of the parsed value, `none` when `float` raises. -/
def pyFloat? (s : String) : Option PyFloat :=
  let t := pyStripList s.data
  let (sgn, u) : ℚ × List Char :=
    match t with
    | '+' :: r => (1, r)
    | '-' :: r => (-1, r)
    | r => (1, r)
  if u = ['i', 'n', 'f'] ∨ u = ['i', 'n', 'f', 'i', 'n', 'i', 't', 'y'] then
    some (if sgn = 1 then .infP else .infN)
  else if u = ['n', 'a', 'n'] then some .nan
  else (parseUnsignedFloat u).map (fun q => .finite (sgn * q))

/-! ### `multi_question_system.py`: session difficulty state machine -/

namespace MultiQ

/-- `DifficultyLevel` of `multi_question_system.py`: real-time difficulty levels
within a single story session. -/
inductive SessionDifficulty where
  | EASY
  | MEDIUM
  | HARD
deriving DecidableEq

/-- `AdaptiveDifficultyManager.adjust_difficulty`. -/
def adjust_difficulty (current_level : SessionDifficulty) (was_correct : Bool)
    (question_number : Nat) : SessionDifficulty :=
  if was_correct then
    if current_level = .EASY then .MEDIUM
    else if current_level = .MEDIUM ∧ question_number < 3 then .HARD
    else current_level
  else
    if current_level = .HARD then .MEDIUM
    else if current_level = .MEDIUM then .EASY
    else current_level

/-- `QuestionResult`: result of a single question attempt. -/
structure QuestionResult where
  question_number : Nat
  question_text : String
  user_answer : String
  correct_answer : String
  is_correct : Bool
  difficulty_level : SessionDifficulty
  response_time : ℚ
  timestamp : ℚ
  explanation : String
deriving DecidableEq

/-- A question dict produced by generation; the three keys `process_answer`
reads with `.get(key, "")` (missing keys modelled as `""`). -/
structure Question where
  question : String
  correct_answer : String
  explanation : String
deriving DecidableEq

/-- `StorySession`: complete story session with multiple questions and
adaptive difficulty. -/
structure StorySession where
  story_id : String
  child_name : String
  theme : String
  learning_focus : String
  current_question : Nat
  difficulty_level : SessionDifficulty
  story_parts : List String
  questions : List Question
  question_results : List QuestionResult
  session_start_time : ℚ
  status : String
deriving DecidableEq

/-- `MultiQuestionStoryGenerator.create_story_session`; `now` stands for
`time.time()`. -/
def create_story_session (child_name theme learning_focus : String) (now : ℚ) :
    StorySession :=
  { story_id := theme ++ "_" ++ learning_focus ++ "_" ++ toString ⌊now⌋
    child_name := child_name
    theme := theme
    learning_focus := learning_focus
    current_question := 0
    difficulty_level := .EASY   -- Always start easy
    story_parts := []
    questions := []
    question_results := []
    session_start_time := now
    status := "in_progress" }

/-- The emoji-stripped learning focus used by `_check_answer` and
`get_difficulty_params`. -/
def clean_focus (learning_focus : String) : String :=
  pyRemoveSub (pyRemoveSub (pyRemoveSub learning_focus "🔢 ") "📚 ") "🧩 "

/-- The math/counting branch test of `_check_answer`. -/
def is_math_focus (learning_focus : String) : Bool :=
  pyContains (pyLower (clean_focus learning_focus)) "math" ||
    pyContains (pyLower (clean_focus learning_focus)) "counting"

/-- `MultiQuestionStoryGenerator._check_answer` (its two string arguments are
already stripped and lower-cased by `process_answer`). -/
def check_answer (user_answer correct_answer learning_focus : String) : Bool :=
  if is_math_focus learning_focus then
    match pyFloat? user_answer, pyFloat? correct_answer with
    | some a, some b => pyFloatEq a b
    | _, _ => user_answer == correct_answer
  else
    -- For vocabulary and problem solving, accept close matches
    pyContains correct_answer user_answer || pyContains user_answer correct_answer

/-- `MultiQuestionStoryGenerator.process_answer`; `now` stands for
`time.time()`.  Returns `none` exactly when the Python code would raise an
`IndexError` reading `session.questions[len(session.question_results)]`. -/
def process_answer (session : StorySession) (user_answer : String)
    (response_time now : ℚ) : Option (Bool × QuestionResult × StorySession) :=
  let current_question_index := session.question_results.length
  match session.questions[current_question_index]? with
  | none => none
  | some current_question =>
    let correct_answer := pyLower (pyStrip current_question.correct_answer)
    let user_answer_clean := pyLower (pyStrip user_answer)
    let is_correct := check_answer user_answer_clean correct_answer session.learning_focus
    let result : QuestionResult :=
      { question_number := current_question_index + 1
        question_text := current_question.question
        user_answer := user_answer
        correct_answer := current_question.correct_answer
        is_correct := is_correct
        difficulty_level := session.difficulty_level
        response_time := response_time
        timestamp := now
        explanation := current_question.explanation }
    let question_results := session.question_results ++ [result]
    let difficulty_level :=
      if question_results.length < 3 then  -- Don't adjust after last question
        adjust_difficulty session.difficulty_level is_correct question_results.length
      else session.difficulty_level
    let status := if question_results.length ≥ 3 then "completed" else session.status
    some (is_correct, result,
      { session with
          question_results := question_results
          current_question := question_results.length
          difficulty_level := difficulty_level
          status := status })

end MultiQ

/-! ### Interaction records

A raw interaction event is a Python dict; every field the adaptive core reads
via `interaction_data.get(...)` or `'key' in interaction_data` is modelled as
an `Option` field (`none` = key absent). -/

structure InteractionData where
  theme : Option String := none
  learning_focus : Option String := none
  response : Option String := none
  correct : Option Bool := none
  response_time : Option ℚ := none
  response_quality : Option ℚ := none
  comprehension_score : Option ℚ := none
  engagement_score : Option ℚ := none
  completed : Option Bool := none
  session_duration : Option ℚ := none
  story_completed : Option Bool := none
  new_words_learned : Option Nat := none
deriving DecidableEq

/-! ### `adaptive_system.py` -/

namespace Adaptive

/-- `LearningStyle`. -/
inductive LearningStyle where
  | VISUAL
  | AUDITORY
  | KINESTHETIC
  | MIXED
deriving DecidableEq

/-- `LearningMetrics` (floats as exact rationals; the `vocabulary_level` etc.
fields start as the integer 1 and become fractional through `+ 0.1` nudges). -/
structure LearningMetrics where
  reading_speed_wpm : ℚ := 0
  comprehension_score : ℚ := 0
  engagement_level : ℚ := 0
  response_time_avg : ℚ := 0
  success_rate : ℚ := 0
  vocabulary_level : ℚ := 1
  math_level : ℚ := 1
  problem_solving_level : ℚ := 1
deriving DecidableEq

/-- `ChildProfile`.  `difficulty_level` is the numeric `.value` of the
`DifficultyLevel` enum (1=BEGINNER … 4=EXPERT).  `interest_graph` is added
dynamically by `InterestGraphBuilder` in Python (absent ≡ empty dict, which the
code treats identically); it is modelled as an insertion-ordered association
list.  `achievement_stats` is the dynamically-added dict of
`emotion_branching.AchievementSystem` (`none` = attribute absent). -/
structure AchievementStats where
  stories_completed : Nat := 0
  math_problems_solved : Nat := 0
  vocabulary_words_learned : Nat := 0
  consecutive_correct : Nat := 0
  current_streak : Nat := 0
  themes_explored : List String := []   -- a Python set, modelled dedup-on-add
  quick_responses : Nat := 0
  creative_responses : Nat := 0
  questions_asked : Nat := 0
  challenges_overcome : Nat := 0
  session_dates : List String := []
deriving DecidableEq

structure ChildProfile where
  name : String
  age : Nat
  learning_style : LearningStyle := .MIXED
  difficulty_level : Nat := 1
  preferred_themes : List String := []
  learning_metrics : LearningMetrics := {}
  interaction_history : List InteractionData := []
  achievements : List String := []
  last_updated : ℚ := 0
  interest_graph : List (String × ℚ) := []
  achievement_stats : Option AchievementStats := none
deriving DecidableEq

/-- `DynamicDifficultyAdjuster._calculate_success_rate`. -/
def calculate_success_rate (interactions : List InteractionData) : ℚ :=
  if interactions.isEmpty then 0.5
  else ((interactions.countP (fun i => i.correct.getD false)) : ℚ) / interactions.length

/-- `DynamicDifficultyAdjuster._calculate_avg_response_time`. -/
def calculate_avg_response_time (interactions : List InteractionData) : ℚ :=
  if interactions.isEmpty then 15
  else ((interactions.map (fun i => i.response_time.getD 15)).sum) / interactions.length

/-- The per-interaction engagement factor inside
`DynamicDifficultyAdjuster._calculate_engagement_level`. -/
def engagement_factor (i : InteractionData) : ℚ :=
  (if i.completed.getD false then 0.4 else 0) +
    (if i.response_quality.getD 0 > 0.5 then 0.3 else 0) +
    (if i.session_duration.getD 0 > 300 then 0.3 else 0)

/-- `DynamicDifficultyAdjuster._calculate_engagement_level`. -/
def calculate_engagement_level (interactions : List InteractionData) : ℚ :=
  if interactions.isEmpty then 0.5
  else ((interactions.map engagement_factor).sum) / interactions.length

/-- `DynamicDifficultyAdjuster.analyze_performance` (returns the numeric
difficulty value; `DifficultyLevel(new_level)` in Python). -/
def analyze_performance (profile : ChildProfile)
    (recent_interactions : List InteractionData) : Nat :=
  if recent_interactions.isEmpty then profile.difficulty_level
  else
    let recent_success_rate := calculate_success_rate (pyLastN 5 recent_interactions)
    let avg_response_time := calculate_avg_response_time (pyLastN 5 recent_interactions)
    let engagement_level := calculate_engagement_level (pyLastN 3 recent_interactions)
    let current_level := profile.difficulty_level
    if recent_success_rate > 0.85 ∧ engagement_level > 0.70 ∧ avg_response_time < 30.0 then
      min 4 (current_level + 1)
    else if recent_success_rate < 0.60 ∨ engagement_level < 0.70 then
      max 1 (current_level - 1)
    else
      current_level

/-- Python `int(...)` on a float: truncation toward zero. -/
def pyInt (q : ℚ) : ℤ := if 0 ≤ q then ⌊q⌋ else ⌈q⌉

/-- The `AdaptiveVocabularySystem.vocabulary_levels` table (its `'words'`
entries; `some` exactly on the keys 1–4 of the Python dict). -/
def vocabulary_levels_words (level : ℤ) : Option (List String) :=
  if level = 1 then some ["big", "small", "happy", "sad", "run", "jump", "red", "blue"]
  else if level = 2 then some ["adventure", "treasure", "magical", "courage", "friendship", "explore"]
  else if level = 3 then some ["magnificent", "mysterious", "challenge", "determined", "discovery"]
  else if level = 4 then some ["extraordinary", "magnificent", "perseverance", "imagination", "accomplishment"]
  else none

/-- `AdaptiveVocabularySystem._get_theme_vocabulary`:
`theme_vocab.get(theme, {}).get(level, [])`. -/
def get_theme_vocabulary (theme : String) (level : ℤ) : List String :=
  if theme = "dragons" then
    if level = 1 then ["fire", "cave", "gold"]
    else if level = 2 then ["dragon", "treasure", "castle"]
    else if level = 3 then ["magnificent", "breathe fire", "guardian"]
    else if level = 4 then ["majestic", "legendary", "protective"]
    else []
  else if theme = "pirates" then
    if level = 1 then ["ship", "sea", "gold"]
    else if level = 2 then ["pirate", "treasure", "island"]
    else if level = 3 then ["adventure", "navigation", "courage"]
    else if level = 4 then ["expedition", "cartographer", "mariner"]
    else []
  else if theme = "princesses" then
    if level = 1 then ["crown", "dress", "nice"]
    else if level = 2 then ["princess", "castle", "kingdom"]
    else if level = 3 then ["royal", "wisdom", "leadership"]
    else if level = 4 then ["diplomacy", "benevolent", "governance"]
    else []
  else []

/-- The clamp `min(4, max(1, int(...)))` in `get_appropriate_vocabulary`. -/
def clamp_vocab_level (level : ℚ) : ℤ := min 4 (max 1 (pyInt level))

/-- `AdaptiveVocabularySystem.get_appropriate_vocabulary`; `none` would mean a
`KeyError` on `self.vocabulary_levels[vocab_level]`. -/
def get_appropriate_vocabulary (profile : ChildProfile) (theme : String) :
    Option (List String) :=
  let vocab_level := clamp_vocab_level profile.learning_metrics.vocabulary_level
  let theme_words := get_theme_vocabulary theme vocab_level
  (vocabulary_levels_words vocab_level).map
    (fun base_words => theme_words ++ base_words.take 3)  -- Limit to prevent overwhelm

/-- Indicator keyword lists of `LearningStyleDetector`. -/
def visual_indicators : List String := ["picture", "see", "look", "color", "bright", "image"]

def auditory_indicators : List String := ["hear", "sound", "listen", "music", "voice", "loud"]

def kinesthetic_indicators : List String := ["move", "touch", "feel", "action", "do", "play"]

/-- Keyword hits of one indicator list in one (lower-cased) response. -/
def indicator_hits (indicators : List String) (response : String) : Nat :=
  indicators.countP (fun ind => pyContains response ind)

/-- `LearningStyleDetector.detect_learning_style`. -/
def detect_learning_style (profile : ChildProfile) : LearningStyle :=
  if profile.interaction_history.isEmpty then .MIXED
  else
    let window := pyLastN 10 profile.interaction_history
    let responses := window.map (fun i => pyLower (i.response.getD ""))
    let visual_score := (responses.map (indicator_hits visual_indicators)).sum
    let auditory_score := (responses.map (indicator_hits auditory_indicators)).sum
    let kinesthetic_score := (responses.map (indicator_hits kinesthetic_indicators)).sum
    let max_score := max visual_score (max auditory_score kinesthetic_score)
    if max_score = 0 then .MIXED
    else
      -- max(scores, key=scores.get): first maximal key in dict order
      let dominant_style : LearningStyle :=
        if visual_score = max_score then .VISUAL
        else if auditory_score = max_score then .AUDITORY
        else .KINESTHETIC
      let total_score := visual_score + auditory_score + kinesthetic_score
      if (max_score : ℚ) / total_score < 0.5 then .MIXED
      else dominant_style

/-- First-match association-list lookup (Python dict read). -/
def alistLookup (g : List (String × ℚ)) (k : String) : Option ℚ :=
  match g with
  | [] => none
  | (k0, v) :: rest => if k0 = k then some v else alistLookup rest k

/-- `InterestGraphBuilder.update_interest_graph`: set
`graph[theme] = 0.8·old + 0.2·engagement` (insert at the end when absent) and
multiply every other theme by the decay factor 0.95. -/
def update_interest_graph (graph : List (String × ℚ)) (theme : String)
    (engagement_score : ℚ) : List (String × ℚ) :=
  let current_weight := (alistLookup graph theme).getD 0
  let new_weight := current_weight * 0.8 + engagement_score * 0.2
  if (alistLookup graph theme).isSome then
    graph.map (fun p => if p.1 = theme then (p.1, new_weight) else (p.1, p.2 * 0.95))
  else
    (graph.map (fun p => (p.1, p.2 * 0.95))) ++ [(theme, new_weight)]

/-- The `'correct' in interaction_data` stanza of
`AdaptiveSystemManager._update_learning_metrics`. -/
def ulm_success (metrics : LearningMetrics) (i : InteractionData) : LearningMetrics :=
  match i.correct with
  | none => metrics
  | some c =>
    { metrics with
      success_rate := metrics.success_rate * 0.9 + (if c then (1 : ℚ) else 0) * 0.1 }

/-- The `'response_time' in interaction_data` stanza. -/
def ulm_response_time (metrics : LearningMetrics) (i : InteractionData) : LearningMetrics :=
  match i.response_time with
  | none => metrics
  | some rt =>
    { metrics with response_time_avg := metrics.response_time_avg * 0.8 + rt * 0.2 }

/-- The `'comprehension_score' in interaction_data` stanza. -/
def ulm_comprehension (metrics : LearningMetrics) (i : InteractionData) : LearningMetrics :=
  match i.comprehension_score with
  | none => metrics
  | some cs =>
    { metrics with comprehension_score := metrics.comprehension_score * 0.8 + cs * 0.2 }

/-- The `'engagement_score' in interaction_data` stanza. -/
def ulm_engagement (metrics : LearningMetrics) (i : InteractionData) : LearningMetrics :=
  match i.engagement_score with
  | none => metrics
  | some es =>
    { metrics with engagement_level := metrics.engagement_level * 0.8 + es * 0.2 }

/-- The skill-level stanza (`+ 0.1` nudge, capped at 4, on a correct answer
with a matching learning focus). -/
def ulm_skills (metrics : LearningMetrics) (i : InteractionData) : LearningMetrics :=
  let learning_focus := pyLower (i.learning_focus.getD "")
  if i.correct.getD false then
    if pyContains learning_focus "math" then
      { metrics with math_level := min 4 (metrics.math_level + 0.1) }
    else if pyContains learning_focus "vocabulary" then
      { metrics with vocabulary_level := min 4 (metrics.vocabulary_level + 0.1) }
    else if pyContains learning_focus "problem" then
      { metrics with problem_solving_level := min 4 (metrics.problem_solving_level + 0.1) }
    else metrics
  else metrics

/-- `AdaptiveSystemManager._update_learning_metrics`: the five statement
stanzas of the Python method, applied in order. -/
def update_learning_metrics (metrics : LearningMetrics) (i : InteractionData) :
    LearningMetrics :=
  ulm_skills (ulm_engagement (ulm_comprehension (ulm_response_time
    (ulm_success metrics i) i) i) i) i

/-- `AdaptiveSystemManager.update_profile_from_interaction`; `now` stands for
`time.time()`. -/
def update_profile_from_interaction (profile : ChildProfile)
    (interaction_data : InteractionData) (now : ℚ) : ChildProfile :=
  let p1 := { profile with
    interaction_history := profile.interaction_history ++ [interaction_data] }
  let p2 := { p1 with
    learning_metrics := update_learning_metrics p1.learning_metrics interaction_data }
  let p3 := { p2 with
    difficulty_level := analyze_performance p2 p2.interaction_history }
  let p4 := { p3 with learning_style := detect_learning_style p3 }
  let p5 := { p4 with
    interest_graph := update_interest_graph p4.interest_graph
      (interaction_data.theme.getD "unknown")
      (interaction_data.engagement_score.getD 0.5) }
  { p5 with last_updated := now }

end Adaptive

/-! ### `emotion_branching.py` -/

namespace EmotionB

/-- `EmotionState`. -/
inductive EmotionState where
  | EXCITED
  | CURIOUS
  | CONFIDENT
  | FRUSTRATED
  | BORED
  | NEUTRAL
deriving DecidableEq

/-- The insertion order of the keys of `EmotionDetector.emotion_indicators`
(this is also the `emotion_scores` dict order, which fixes the argmax
tie-break of Python `max(emotion_scores, key=emotion_scores.get)`). -/
def emotion_score_keys : List EmotionState :=
  [.EXCITED, .CURIOUS, .CONFIDENT, .FRUSTRATED, .BORED]

/-- `emotion_indicators[e]['keywords']`. -/
def emotion_keywords : EmotionState → List String
  | .EXCITED => ["wow", "amazing", "awesome", "cool", "yes", "!", "love", "fantastic"]
  | .CURIOUS => ["why", "how", "what", "where", "tell me more", "?", "interesting"]
  | .CONFIDENT => ["easy", "know", "sure", "definitely", "of course", "obviously"]
  | .FRUSTRATED => ["hard", "difficult", "don\x27t know", "confused", "help", "stuck"]
  | .BORED => ["boring", "tired", "whatever", "ok", "fine", "done"]
  | .NEUTRAL => []   -- NEUTRAL has no entry in the Python dict

/-- `emotion_indicators[e]['response_patterns']`. -/
def emotion_patterns : EmotionState → List String
  | .EXCITED => ["multiple_exclamations", "long_responses", "immediate_response"]
  | .CURIOUS => ["questions", "exploration_requests"]
  | .CONFIDENT => ["quick_correct_answers", "detailed_responses"]
  | .FRUSTRATED => ["slow_response", "short_answers", "repeated_errors"]
  | .BORED => ["minimal_responses", "declining_engagement"]
  | .NEUTRAL => []

/-- `emotion_indicators[e]['threshold']` (NEUTRAL has no entry and its value is
never consulted: the argmax ranges over `emotion_score_keys` only). -/
def emotion_threshold : EmotionState → ℚ
  | .EXCITED => 0.7
  | .CURIOUS => 0.6
  | .CONFIDENT => 0.8
  | .FRUSTRATED => 0.7
  | .BORED => 0.6
  | .NEUTRAL => 0

/-- `EmotionDetector._analyze_response_patterns`.  Note it reads the *raw*
response text (not lower-cased). -/
def analyze_response_patterns (i : InteractionData) (patterns : List String) : ℚ :=
  let response_text := i.response.getD ""
  let response_time := i.response_time.getD 15
  let is_correct := i.correct.getD false
  let pattern_score := patterns.foldl (fun pattern_score pattern =>
    if pattern = "multiple_exclamations" ∧ pyCountChar response_text '!' > 1 then
      pattern_score + 0.3
    else if pattern = "long_responses" ∧ pyLen response_text > 50 then
      pattern_score + 0.2
    else if pattern = "immediate_response" ∧ response_time < 5 then
      pattern_score + 0.3
    else if pattern = "questions" ∧ pyContains response_text "?" then
      pattern_score + 0.4
    else if pattern = "quick_correct_answers" ∧ is_correct ∧ response_time < 10 then
      pattern_score + 0.4
    else if pattern = "slow_response" ∧ response_time > 30 then
      pattern_score + 0.3
    else if pattern = "short_answers" ∧ pyLen response_text < 10 then
      pattern_score + 0.2
    else if pattern = "minimal_responses" ∧ pyLen response_text < 5 then
      pattern_score + 0.4
    else pattern_score) 0
  min 1 pattern_score

/-- The raw per-emotion score computed in the main loop of
`EmotionDetector.detect_emotion` (keyword part on the lower-cased response,
pattern part weighted 0.6). -/
def compute_emotion_scores (i : InteractionData) : EmotionState → ℚ :=
  fun emotion =>
    let response_text := pyLower (i.response.getD "")
    let keywords := emotion_keywords emotion
    let keyword_count := keywords.countP (fun k => pyContains response_text k)
    (if keyword_count > 0 then 0.4 * ((keyword_count : ℚ) / keywords.length) else 0) +
      analyze_response_patterns i (emotion_patterns emotion) * 0.6

/-- Python `recent_emotion in emotion_scores` where `recent_emotion : str` and
the dict keys are `EmotionState` enum members: a `str` never compares equal to
an `Enum` member under Python `==`, so the test is `false` for every string. -/
def pyStrEqEmotionState (_s : String) (_e : EmotionState) : Bool := false

/-- `EmotionDetector._apply_contextual_adjustments`. -/
def apply_contextual_adjustments (emotion_scores : EmotionState → ℚ)
    (i : InteractionData) (historical_emotions : List String) : EmotionState → ℚ :=
  -- Recent emotion momentum
  let s1 : EmotionState → ℚ :=
    match historical_emotions.getLast? with
    | none => emotion_scores
    | some recent_emotion =>
      if emotion_score_keys.any (pyStrEqEmotionState recent_emotion) then
        fun e => if pyStrEqEmotionState recent_emotion e then emotion_scores e * 1.2
                 else emotion_scores e
      else emotion_scores
  -- Performance context
  let is_correct := i.correct.getD false
  if is_correct then
    fun e =>
      if e = .CONFIDENT then s1 e * 1.3
      else if e = .EXCITED then s1 e * 1.1
      else if e = .FRUSTRATED then s1 e * 0.7
      else s1 e
  else
    fun e =>
      if e = .FRUSTRATED then s1 e * 1.2
      else if e = .CONFIDENT then s1 e * 0.6
      else s1 e

/-- Python `max(emotion_scores, key=emotion_scores.get)`: the first key (in
dict insertion order) attaining the maximal score. -/
def dominant_emotion (scores : EmotionState → ℚ) : EmotionState :=
  [EmotionState.CURIOUS, .CONFIDENT, .FRUSTRATED, .BORED].foldl
    (fun best e => if scores e > scores best then e else best) .EXCITED

/-- `EmotionDetector.detect_emotion`. -/
def detect_emotion (interaction_data : InteractionData)
    (historical_emotions : List String) : EmotionState :=
  let emotion_scores :=
    apply_contextual_adjustments (compute_emotion_scores interaction_data)
      interaction_data historical_emotions
  let dominant := dominant_emotion emotion_scores
  -- Only return emotion if confidence is above threshold
  if emotion_scores dominant ≥ emotion_threshold dominant then dominant
  else .NEUTRAL

/-- The keys of `AchievementSystem.achievement_definitions`, in dict insertion
order (the iteration order of `check_for_new_achievements`). -/
def achievement_ids : List String :=
  ["first_story_complete", "math_master_beginner", "vocabulary_builder",
   "problem_solver", "story_enthusiast", "theme_explorer", "quick_thinker",
   "creative_responses", "question_asker", "never_give_up", "challenge_seeker",
   "improvement_champion"]

/-- `AchievementSystem._is_creative_response`. -/
def is_creative_response (response : String) : Bool :=
  let creative_indicators : List String :=
    ["imagine", "pretend", "what if", "maybe", "could be",
     "different way", "another idea", "creative", "unique"]
  creative_indicators.any (fun ind => pyContains (pyLower response) ind) ||
    pyLen response > 30

open Adaptive in
/-- `AchievementSystem._update_achievement_stats`, acting on the stats dict
(initialised to all-zero defaults when the attribute was absent); `today`
stands for `time.strftime('%Y-%m-%d')`.  Note `'math' in
interaction_data.get('learning_focus', '')` tests the raw (not lower-cased)
focus string. -/
def update_achievement_stats (stats : AchievementStats) (i : InteractionData)
    (today : String) : AchievementStats :=
  let s1 : AchievementStats := if i.story_completed.getD false then
      { stats with stories_completed := stats.stories_completed + 1 }
    else stats
  let s2 : AchievementStats := if i.correct.getD false then
      let s : AchievementStats := { s1 with current_streak := s1.current_streak + 1 }
      if pyContains (i.learning_focus.getD "") "math" then
        { s with math_problems_solved := s.math_problems_solved + 1 }
      else s
    else { s1 with current_streak := 0 }
  let s3 : AchievementStats := if i.new_words_learned.getD 0 > 0 then
      { s2 with vocabulary_words_learned :=
          s2.vocabulary_words_learned + i.new_words_learned.getD 0 }
    else s2
  let theme := i.theme.getD ""
  let s4 : AchievementStats := if theme ≠ "" ∧ theme ∉ s3.themes_explored then
      { s3 with themes_explored := s3.themes_explored ++ [theme] }
    else s3
  let s5 : AchievementStats := if i.response_time.getD 15 < 10 then
      { s4 with quick_responses := s4.quick_responses + 1 }
    else s4
  let s6 : AchievementStats := if is_creative_response (i.response.getD "") then
      { s5 with creative_responses := s5.creative_responses + 1 }
    else s5
  let s7 : AchievementStats := if pyContains (i.response.getD "") "?" then
      { s6 with questions_asked := s6.questions_asked + 1 }
    else s6
  if today ∉ s7.session_dates then
    { s7 with session_dates := s7.session_dates ++ [today] }
  else s7

open Adaptive in
/-- `AchievementSystem._check_improvement_trend`. -/
def check_improvement_trend (profile : ChildProfile) : Bool :=
  if profile.interaction_history.length < 10 then false
  else
    let recent_success :=
      (pyLastN 5 profile.interaction_history).countP (fun i => i.correct.getD false)
    let early_success :=
      (profile.interaction_history.take 5).countP (fun i => i.correct.getD false)
    recent_success > early_success

open Adaptive in
/-- The `criteria_map` of `AchievementSystem._check_achievement_criteria`,
given the (updated) stats dict. -/
def criteria_map (profile : ChildProfile) (stats : AchievementStats) :
    List (String × Bool) :=
  [("first_story_complete", decide (stats.stories_completed ≥ 1)),
   ("math_master_beginner", decide (stats.math_problems_solved ≥ 5)),
   ("vocabulary_builder", decide (stats.vocabulary_words_learned ≥ 10)),
   ("problem_solver", decide (stats.stories_completed ≥ 3 ∧
      profile.learning_metrics.success_rate > 0.8)),
   ("story_enthusiast", decide (stats.stories_completed ≥ 10)),
   ("theme_explorer", decide (stats.themes_explored.length ≥ 3)),
   ("quick_thinker", decide (stats.quick_responses ≥ 5)),
   ("creative_responses", decide (stats.creative_responses ≥ 3)),
   ("question_asker", decide (stats.questions_asked ≥ 5)),
   ("never_give_up", decide (stats.challenges_overcome ≥ 3)),
   ("challenge_seeker", decide (profile.difficulty_level ≥ 3)),
   ("improvement_champion", decide (profile.interaction_history.length ≥ 10 ∧
      check_improvement_trend profile = true))]

open Adaptive in
/-- `AchievementSystem._check_achievement_criteria`:
`criteria_map.get(achievement_id, lambda: False)()`; `false` when the
`achievement_stats` attribute is absent. -/
def check_achievement_criteria (achievement_id : String) (profile : ChildProfile) :
    Bool :=
  match profile.achievement_stats with
  | none => false
  | some stats => ((criteria_map profile stats).lookup achievement_id).getD false

open Adaptive in
/-- The profile after the `_update_achievement_stats` call at the top of
`check_for_new_achievements`. -/
def stats_updated_profile (profile : ChildProfile) (i : InteractionData)
    (today : String) : ChildProfile :=
  { profile with
    achievement_stats := some (update_achievement_stats (profile.achievement_stats.getD {}) i today) }

/-- The award loop of `check_for_new_achievements`: walk the catalog ids,
skipping ids already in `achievements`, awarding each id whose criteria hold
(appending it to both the new-unlock list and `achievements`).  The unlock
`Achievement` records are represented by their ids (their remaining fields —
title, description, category, `earned_date=time.time()`, the triggering
interaction and celebration text — are copied template metadata). -/
def award_loop (crit : String → Bool) :
    List String → List String → List String → List String × List String
  | [], news, ach => (news, ach)
  | id :: rest, news, ach =>
    if id ∉ ach ∧ crit id then award_loop crit rest (news ++ [id]) (ach ++ [id])
    else award_loop crit rest news ach

open Adaptive in
/-- `AchievementSystem.check_for_new_achievements`: returns the list of newly
unlocked achievement ids and the mutated profile. -/
def check_for_new_achievements (profile : ChildProfile) (i : InteractionData)
    (today : String) : List String × ChildProfile :=
  let p1 := stats_updated_profile profile i today
  let r := award_loop (fun id => check_achievement_criteria id p1)
    achievement_ids [] p1.achievements
  (r.1, { p1 with achievements := r.2 })

open Adaptive in
/-- A sequence of `check_for_new_achievements` calls: returns the per-call
batches of newly unlocked ids and the final profile. -/
def run_achievements (profile : ChildProfile) :
    List (InteractionData × String) → List (List String) × ChildProfile
  | [] => ([], profile)
  | (i, today) :: rest =>
    let r := check_for_new_achievements profile i today
    let rr := run_achievements r.2 rest
    (r.1 :: rr.1, rr.2)

open Adaptive in
/-- The list of ids the award loop appends, as a standalone recursion (proof
companion of `award_loop`). -/
def awarded (crit : String → Bool) : List String → List String → List String
  | [], _ => []
  | id :: rest, ach =>
    if id ∉ ach ∧ crit id then id :: awarded crit rest (ach ++ [id])
    else awarded crit rest ach

end EmotionB

/-! ### Sequenced runs and bound predicates -/

namespace Adaptive

/-- A sequence of `update_profile_from_interaction` calls (each with its
`time.time()` value). -/
def run_interactions (p : ChildProfile) : List (InteractionData × ℚ) → ChildProfile
  | [] => p
  | (i, t) :: rest => run_interactions (update_profile_from_interaction p i t) rest

/-- The interaction-record typing of §3 of the spec: `engagementScore` and
`comprehensionScore` are 0–1 valued when present. -/
abbrev interaction_scores_in_range (i : InteractionData) : Prop :=
  0 ≤ i.engagement_score.getD 0 ∧ i.engagement_score.getD 0 ≤ 1 ∧
    0 ≤ i.comprehension_score.getD 0 ∧ i.comprehension_score.getD 0 ≤ 1

/-- The bounds invariant on `LearningMetrics`: rates in [0,1], skill levels in
[1,4]. -/
abbrev metrics_in_bounds (m : LearningMetrics) : Prop :=
  0 ≤ m.success_rate ∧ m.success_rate ≤ 1 ∧
    0 ≤ m.engagement_level ∧ m.engagement_level ≤ 1 ∧
    0 ≤ m.comprehension_score ∧ m.comprehension_score ≤ 1 ∧
    1 ≤ m.math_level ∧ m.math_level ≤ 4 ∧
    1 ≤ m.vocabulary_level ∧ m.vocabulary_level ≤ 4 ∧
    1 ≤ m.problem_solving_level ∧ m.problem_solving_level ≤ 4

end Adaptive

/-! ### Concrete inputs used by the witnesses -/

namespace MultiQ

def dummy_result : QuestionResult :=
  { question_number := 0, question_text := "", user_answer := "", correct_answer := ""
    is_correct := false, difficulty_level := .EASY, response_time := 0, timestamp := 0
    explanation := "" }

def dummy_session : StorySession := create_story_session "" "" "" 0

/-- A concrete 3-question math session (questions as the app would attach
them). -/
def c2_session0 : StorySession :=
  { create_story_session "ava" "dragons" "🔢 Counting & Numbers" 0 with
    questions :=
      [{ question := "How many eggs?", correct_answer := "2", explanation := "1+1" },
       { question := "How many now?", correct_answer := "3", explanation := "2+1" },
       { question := "And now?", correct_answer := "4", explanation := "3+1" }] }

def c2_out1 : Bool × QuestionResult × StorySession :=
  (process_answer c2_session0 "2" 1 10).getD (false, dummy_result, dummy_session)

end MultiQ

namespace Adaptive

def c4_profile : ChildProfile := { name := "sam", age := 6, difficulty_level := 2 }

def c4_int (b : Bool) : InteractionData := { correct := some b, response_time := some 5 }

/-- Scenario B: five interactions, one of five correct. -/
def c4_ints : List InteractionData :=
  [c4_int true, c4_int false, c4_int false, c4_int false, c4_int false]

def c7_profile : ChildProfile := { name := "mia", age := 6 }

/-- An interaction with *no* fields at all: in particular `theme` and
`learning_focus` are absent. -/
def c7_interaction : InteractionData := {}

def c8_profile : ChildProfile := { name := "zoe", age := 7 }

def c8_interaction : InteractionData :=
  { correct := some true, learning_focus := some "math adventures",
    engagement_score := some 0.5 }

def c9_low : ChildProfile :=
  { name := "lo", age := 5, learning_metrics := { vocabulary_level := 0.3 } }

def c9_high : ChildProfile :=
  { name := "hi", age := 9, learning_metrics := { vocabulary_level := 7 } }

end Adaptive

namespace EmotionB

open Adaptive

def c3_profile : ChildProfile := { name := "kai", age := 7 }

/-- A correct math interaction (raw focus string contains `"math"`). -/
def c3_math_interaction : InteractionData :=
  { correct := some true, learning_focus := some "math" }

def c3_events : List (InteractionData × String) :=
  List.replicate 6 (c3_math_interaction, "2025-01-01")

def c3_q4 : ChildProfile :=
  (run_achievements c3_profile (List.replicate 4 (c3_math_interaction, "2025-01-01"))).2

def c3_q5 : ChildProfile :=
  (run_achievements c3_profile (List.replicate 5 (c3_math_interaction, "2025-01-01"))).2

/-- The interaction of the momentum counterexample: five excited keywords, two
exclamation marks, an immediate correct answer. -/
def c5_interaction : InteractionData :=
  { response := some "wow amazing awesome cool!!", correct := some true,
    response_time := some 3 }

end EmotionB

/-! ## Helper lemmas -/

theorem listContainsSub_nil (l : List Char) : listContainsSub l [] = true := by
  cases l <;> simp [listContainsSub, listStartsWith]

theorem pyContains_nil (s : String) : pyContains s "" = true := by
  unfold pyContains
  have h : ("" : String).data = [] := rfl
  rw [h]
  exact listContainsSub_nil _

theorem pyLastN_ne_nil {α : Type} {l : List α} (h : l ≠ []) {n : Nat} (hn : 0 < n) :
    pyLastN n l ≠ [] := by
  have hl : 0 < l.length := List.length_pos.mpr h
  have hlen : 0 < (pyLastN n l).length := by
    simp only [pyLastN, List.length_drop]
    omega
  exact List.length_pos.mp hlen

theorem alistLookup_upd_present (t : String) (w w0 : ℚ) :
    ∀ g : List (String × ℚ), Ainia.Adaptive.alistLookup g t = some w0 →
      Ainia.Adaptive.alistLookup
        (g.map (fun p => if p.1 = t then (p.1, w) else (p.1, p.2 * 0.95))) t = some w := by
  intro g
  induction g with
  | nil => intro h; exact absurd h (by simp [Ainia.Adaptive.alistLookup])
  | cons hd tl ih =>
    intro h
    obtain ⟨k, v⟩ := hd
    simp only [Ainia.Adaptive.alistLookup] at h
    simp only [List.map_cons]
    by_cases hk : k = t
    · rw [if_pos hk]
      simp only [Ainia.Adaptive.alistLookup]
      rw [if_pos hk]
    · rw [if_neg hk] at h
      rw [if_neg hk]
      simp only [Ainia.Adaptive.alistLookup]
      rw [if_neg hk]
      exact ih h

theorem alistLookup_upd_absent (t : String) (w : ℚ) :
    ∀ g : List (String × ℚ), Ainia.Adaptive.alistLookup g t = none →
      Ainia.Adaptive.alistLookup
        ((g.map (fun p => (p.1, p.2 * 0.95))) ++ [(t, w)]) t = some w := by
  intro g
  induction g with
  | nil => intro _; simp [Ainia.Adaptive.alistLookup]
  | cons hd tl ih =>
    intro h
    obtain ⟨k, v⟩ := hd
    by_cases hk : k = t
    · simp [Ainia.Adaptive.alistLookup, hk] at h
    · simp only [Ainia.Adaptive.alistLookup, if_neg hk] at h
      simp only [List.map_cons, List.cons_append]
      simp [Ainia.Adaptive.alistLookup, hk]
      exact ih h

theorem alistLookup_update_interest_graph (g : List (String × ℚ)) (t : String) (e : ℚ) :
    Ainia.Adaptive.alistLookup (Ainia.Adaptive.update_interest_graph g t e) t
      = some ((Ainia.Adaptive.alistLookup g t).getD 0 * 0.8 + e * 0.2) := by
  unfold Ainia.Adaptive.update_interest_graph
  cases hs : Ainia.Adaptive.alistLookup g t with
  | some w0 =>
    simp only [hs, Option.isSome_some, if_true, Option.getD_some]
    exact alistLookup_upd_present t _ w0 g hs
  | none =>
    simp only [hs, Option.isSome_none, Bool.false_eq_true, if_false, Option.getD_none]
    exact alistLookup_upd_absent t _ g hs

/-! ## Claims -/

open MultiQ Adaptive EmotionB

/-- C1: before the 3rd answered question, `adjust_difficulty` maps a correct
answer to EASY→MEDIUM, MEDIUM→HARD, HARD→HARD and an incorrect answer to
HARD→MEDIUM, MEDIUM→EASY, EASY→EASY; HARD-with-correct and EASY-with-incorrect
leave the state unchanged and the result is always one of the three states. -/
theorem claim_C1 (lvl : SessionDifficulty) (qn : Nat) (h : qn < 3) :
    (adjust_difficulty lvl true qn =
      match lvl with
      | .EASY => .MEDIUM
      | .MEDIUM => .HARD
      | .HARD => .HARD) ∧
    (adjust_difficulty lvl false qn =
      match lvl with
      | .HARD => .MEDIUM
      | .MEDIUM => .EASY
      | .EASY => .EASY) ∧
    (∀ b : Bool, adjust_difficulty lvl b qn = .EASY ∨
      adjust_difficulty lvl b qn = .MEDIUM ∨ adjust_difficulty lvl b qn = .HARD) := by
  refine ⟨?_, ?_, ?_⟩
  · cases lvl <;> simp [adjust_difficulty, h]
  · cases lvl <;> simp [adjust_difficulty, h]
  · intro b
    cases b <;> cases lvl <;> simp [adjust_difficulty, h]

/-- Witness for C1 at concrete inputs (question 1 and question 2). -/
theorem claim_C1_witness :
    adjust_difficulty .EASY true 1 = .MEDIUM ∧
    adjust_difficulty .MEDIUM true 2 = .HARD ∧
    adjust_difficulty .HARD true 2 = .HARD ∧
    adjust_difficulty .EASY false 1 = .EASY := by
  have h1 := claim_C1 .EASY 1 (by decide)
  have h2 := claim_C1 .MEDIUM 2 (by decide)
  have h3 := claim_C1 .HARD 2 (by decide)
  exact ⟨h1.1, h2.1, h3.1, h1.2.1⟩

/-- C2: a session created by `create_story_session` starts at EASY with status
`in_progress` and no results; each successful `process_answer` call appends
exactly one `QuestionResult`; the status becomes `completed` exactly when the
3rd result is recorded; the difficulty transition is applied exactly when
fewer than 3 results exist after the append (so the difficulty reached after
question 2's adjustment is frozen once the 3rd answer is processed). -/
theorem claim_C2 :
    (∀ (cn th lf : String) (now : ℚ),
      (create_story_session cn th lf now).difficulty_level = SessionDifficulty.EASY ∧
      (create_story_session cn th lf now).status = "in_progress" ∧
      (create_story_session cn th lf now).question_results = []) ∧
    (∀ (s : StorySession) (ua : String) (rt now : ℚ) (c : Bool)
      (r : QuestionResult) (s2 : StorySession),
      process_answer s ua rt now = some (c, r, s2) →
      s2.question_results = s.question_results ++ [r] ∧
      (s.status = "in_progress" →
        (s2.status = "completed" ↔ 3 ≤ s2.question_results.length)) ∧
      (3 ≤ s2.question_results.length → s2.difficulty_level = s.difficulty_level) ∧
      (s2.question_results.length < 3 →
        s2.difficulty_level = adjust_difficulty s.difficulty_level c
          s2.question_results.length)) := by
  constructor
  · intro cn th lf now
    exact ⟨rfl, rfl, rfl⟩
  · intro s ua rt now c r s2 h
    simp only [process_answer] at h
    cases hq : s.questions[s.question_results.length]? with
    | none =>
      rw [hq] at h
      exact absurd h (by simp)
    | some q =>
      rw [hq] at h
      simp only [Option.some.injEq, Prod.mk.injEq] at h
      obtain ⟨hc, hr, hs⟩ := h
      subst hc
      subst hr
      subst hs
      refine ⟨rfl, ?_, ?_, ?_⟩
      · intro hst
        dsimp only
        split_ifs with hlen
        · exact iff_of_true rfl hlen
        · rw [hst]
          exact iff_of_false (by decide) hlen
      · intro hlen
        dsimp only at hlen ⊢
        rw [if_neg (by omega)]
      · intro hlen
        dsimp only at hlen ⊢
        rw [if_pos hlen]

/-- Witness for C2: the concrete 3-question session `c2_session0`, first
answer "2" (correct). -/
theorem claim_C2_witness :
    (create_story_session "ava" "dragons" "🔢 Counting & Numbers" 0).difficulty_level
        = SessionDifficulty.EASY ∧
    c2_out1.2.2.question_results = c2_session0.question_results ++ [c2_out1.2.1] ∧
    (c2_out1.2.2.status = "completed" ↔ 3 ≤ c2_out1.2.2.question_results.length) ∧
    c2_out1.2.2.difficulty_level
      = adjust_difficulty c2_session0.difficulty_level c2_out1.1
          c2_out1.2.2.question_results.length := by
  have h0 := claim_C2.1 "ava" "dragons" "🔢 Counting & Numbers" 0
  have h := claim_C2.2 c2_session0 "2" 1 10 c2_out1.1 c2_out1.2.1 c2_out1.2.2
    (by rfl)
  refine ⟨h0.1, h.1, h.2.1 (by rfl), h.2.2.2 ?_⟩
  rw [h.1]
  decide

/-- C6: for math/counting focuses the evaluator returns true iff both
(stripped, lower-cased) answers parse as floats and are numerically equal, and
falls back to equality of the cleaned strings when either parse fails; for the
non-math branch (vocabulary/problem-solving) it returns true iff either
cleaned string is a substring of the other.  Float parsing is `pyFloat?` (an
exact-rational model of Python `float`). -/
theorem claim_C6 (user_answer correct_answer learning_focus : String) :
    (is_math_focus learning_focus = true →
      (check_answer (pyLower (pyStrip user_answer)) (pyLower (pyStrip correct_answer))
          learning_focus = true ↔
        ((∃ a b, pyFloat? (pyLower (pyStrip user_answer)) = some a ∧
            pyFloat? (pyLower (pyStrip correct_answer)) = some b ∧ pyFloatEq a b = true) ∨
          ((pyFloat? (pyLower (pyStrip user_answer)) = none ∨
              pyFloat? (pyLower (pyStrip correct_answer)) = none) ∧
            pyLower (pyStrip user_answer) = pyLower (pyStrip correct_answer))))) ∧
    (is_math_focus learning_focus = false →
      (check_answer (pyLower (pyStrip user_answer)) (pyLower (pyStrip correct_answer))
          learning_focus = true ↔
        (pyContains (pyLower (pyStrip correct_answer)) (pyLower (pyStrip user_answer)) = true ∨
          pyContains (pyLower (pyStrip user_answer)) (pyLower (pyStrip correct_answer)) = true))) := by
  constructor
  · intro hf
    simp only [check_answer, hf, if_true]
    cases hpu : pyFloat? (pyLower (pyStrip user_answer)) <;>
      cases hpc : pyFloat? (pyLower (pyStrip correct_answer)) <;>
      simp [hpu, hpc, beq_iff_eq]
  · intro hf
    simp [check_answer, hf]

/-- Witness for C6: Scenario D, `"5"` vs `"5.0"` under a math focus and
`"It means brave"` vs `"brave"` under a vocabulary focus. -/
theorem claim_C6_witness :
    check_answer (pyLower (pyStrip "5")) (pyLower (pyStrip "5.0")) "math" = true ∧
    check_answer (pyLower (pyStrip "It means brave")) (pyLower (pyStrip "brave"))
      "vocabulary" = true := by
  have h1 := (claim_C6 "5" "5.0" "math").1 (by rfl)
  have h2 := (claim_C6 "It means brave" "brave" "vocabulary").2 (by rfl)
  constructor
  · refine h1.mpr (Or.inl ⟨_, _, rfl, rfl, ?_⟩)
    simp only [pyFloatEq]
    rw [beq_iff_eq]
    norm_num [digitsToNat]
    decide
  · exact h2.mpr (Or.inr (by rfl))

/-- C10 (implicit): in the non-math branch, a user answer that strips to the
empty string is judged correct against every correct answer, because the empty
string is a substring of any string. -/
theorem claim_C10 (user_answer correct_answer learning_focus : String)
    (hf : is_math_focus learning_focus = false)
    (hu : pyStrip user_answer = "") :
    check_answer (pyLower (pyStrip user_answer)) (pyLower (pyStrip correct_answer))
      learning_focus = true := by
  rw [hu]
  have hlow : pyLower "" = "" := rfl
  rw [hlow]
  simp only [check_answer, hf, if_false, Bool.false_eq_true]
  rw [pyContains_nil]
  simp

/-- Witness for C10: a whitespace-only answer against `"brave"` under a
vocabulary focus. -/
theorem claim_C10_witness :
    check_answer (pyLower (pyStrip "   ")) (pyLower (pyStrip "brave")) "vocabulary"
      = true :=
  claim_C10 "   " "brave" "vocabulary" (by rfl) (by rfl)

/-- C4: `analyze_performance` returns the current level on an empty history,
and otherwise increments (capped at 4) iff the success rate over the last 5
interactions exceeds 0.85, the engagement composite over the last 3 exceeds
0.70 and the mean response time over the last 5 is below 30; else decrements
(floored at 1) iff the success rate is below 0.60 or the engagement composite
is below 0.70; else returns the level unchanged. -/
theorem claim_C4 (profile : ChildProfile) (ints : List InteractionData) :
    (ints = [] → analyze_performance profile ints = profile.difficulty_level) ∧
    (ints ≠ [] →
      analyze_performance profile ints =
        if ((pyLastN 5 ints).countP (fun i => i.correct.getD false) : ℚ)
              / (pyLastN 5 ints).length > 0.85 ∧
            calculate_engagement_level (pyLastN 3 ints) > 0.70 ∧
            ((pyLastN 5 ints).map (fun i => i.response_time.getD 15)).sum
              / (pyLastN 5 ints).length < 30.0 then
          min 4 (profile.difficulty_level + 1)
        else if ((pyLastN 5 ints).countP (fun i => i.correct.getD false) : ℚ)
              / (pyLastN 5 ints).length < 0.60 ∨
            calculate_engagement_level (pyLastN 3 ints) < 0.70 then
          max 1 (profile.difficulty_level - 1)
        else profile.difficulty_level) := by
  constructor
  · intro h
    subst h
    rfl
  · intro h
    have h5 : pyLastN 5 ints ≠ [] := pyLastN_ne_nil h (by norm_num)
    have h5e : (pyLastN 5 ints).isEmpty = false := by
      simp [List.isEmpty_iff, h5]
    have he : ints.isEmpty = false := by
      simp [List.isEmpty_iff, h]
    have hsr : calculate_success_rate (pyLastN 5 ints) =
        ((pyLastN 5 ints).countP (fun i => i.correct.getD false) : ℚ)
          / (pyLastN 5 ints).length := by
      simp [calculate_success_rate, h5e]
    have hart : calculate_avg_response_time (pyLastN 5 ints) =
        ((pyLastN 5 ints).map (fun i => i.response_time.getD 15)).sum
          / (pyLastN 5 ints).length := by
      simp [calculate_avg_response_time, h5e]
    simp only [analyze_performance, he, Bool.false_eq_true, if_false, hsr, hart]

/-- Witness for C4: Scenario B — five interactions with one of five correct
drop the difficulty from level 2 to level 1. -/
theorem claim_C4_witness :
    analyze_performance c4_profile c4_ints = 1 := by
  have h := (claim_C4 c4_profile c4_ints).2 (by simp [c4_ints])
  rw [h]
  norm_num [c4_ints, c4_int, c4_profile, pyLastN, calculate_engagement_level,
    engagement_factor]

/-- C9: the vocabulary level used by `get_appropriate_vocabulary` is always
the clamp `min(4, max(1, int(level)))`, which equals `min 4 (max 1 ⌊level⌋)`
and lies in [1,4]; unknown themes get the empty theme-specific list; and the
lookup never fails: the result is the theme words concatenated with at most 3
generic level-appropriate words. -/
theorem claim_C9 (profile : ChildProfile) (theme : String) :
    (1 ≤ clamp_vocab_level profile.learning_metrics.vocabulary_level ∧
      clamp_vocab_level profile.learning_metrics.vocabulary_level ≤ 4) ∧
    clamp_vocab_level profile.learning_metrics.vocabulary_level
      = min 4 (max 1 ⌊profile.learning_metrics.vocabulary_level⌋) ∧
    (theme ≠ "dragons" ∧ theme ≠ "pirates" ∧ theme ≠ "princesses" →
      get_theme_vocabulary theme
        (clamp_vocab_level profile.learning_metrics.vocabulary_level) = []) ∧
    get_appropriate_vocabulary profile theme =
      some (get_theme_vocabulary theme
          (clamp_vocab_level profile.learning_metrics.vocabulary_level) ++
        ((vocabulary_levels_words
            (clamp_vocab_level profile.learning_metrics.vocabulary_level)).getD []).take 3) := by
  have hb : 1 ≤ clamp_vocab_level profile.learning_metrics.vocabulary_level ∧
      clamp_vocab_level profile.learning_metrics.vocabulary_level ≤ 4 := by
    unfold clamp_vocab_level
    exact ⟨le_min (by norm_num) (le_max_left 1 _), min_le_left _ _⟩
  have hfl : clamp_vocab_level profile.learning_metrics.vocabulary_level
      = min 4 (max 1 ⌊profile.learning_metrics.vocabulary_level⌋) := by
    unfold clamp_vocab_level pyInt
    split_ifs with h0
    · rfl
    · push_neg at h0
      have hc : ⌈profile.learning_metrics.vocabulary_level⌉ ≤ 0 :=
        Int.ceil_le.mpr (by exact_mod_cast h0.le)
      have hf : ⌊profile.learning_metrics.vocabulary_level⌋ ≤ 0 := Int.floor_nonpos h0.le
      simp only [min_def, max_def]
      split_ifs <;> omega
  refine ⟨hb, hfl, ?_, ?_⟩
  · rintro ⟨h1, h2, h3⟩
    unfold get_theme_vocabulary
    rw [if_neg h1, if_neg h2, if_neg h3]
  · obtain ⟨hb1, hb4⟩ := hb
    have hcases : clamp_vocab_level profile.learning_metrics.vocabulary_level = 1 ∨
        clamp_vocab_level profile.learning_metrics.vocabulary_level = 2 ∨
        clamp_vocab_level profile.learning_metrics.vocabulary_level = 3 ∨
        clamp_vocab_level profile.learning_metrics.vocabulary_level = 4 := by omega
    unfold get_appropriate_vocabulary
    rcases hcases with h | h | h | h <;> rw [h] <;> rfl

/-- Witness for C9: Scenario F — vocabularyLevel 0.3 clamps to 1 and
vocabularyLevel 7 clamps to 4; an unknown theme gives no theme words; both
lookups succeed. -/
theorem claim_C9_witness :
    clamp_vocab_level c9_low.learning_metrics.vocabulary_level = 1 ∧
    clamp_vocab_level c9_high.learning_metrics.vocabulary_level = 4 ∧
    get_theme_vocabulary "space"
      (clamp_vocab_level c9_high.learning_metrics.vocabulary_level) = [] ∧
    (get_appropriate_vocabulary c9_low "dragons").isSome = true ∧
    (get_appropriate_vocabulary c9_high "space").isSome = true := by
  have hlo := claim_C9 c9_low "dragons"
  have hhi := claim_C9 c9_high "space"
  have hf0 : ⌊c9_low.learning_metrics.vocabulary_level⌋ = 0 := by
    show ⌊(0.3 : ℚ)⌋ = 0
    rw [Int.floor_eq_iff]
    norm_num
  have hf7 : ⌊c9_high.learning_metrics.vocabulary_level⌋ = 7 := by
    show ⌊(7 : ℚ)⌋ = 7
    rw [Int.floor_eq_iff]
    norm_num
  refine ⟨?_, ?_, hhi.2.2.1 ⟨by decide, by decide, by decide⟩, ?_, ?_⟩
  · rw [hlo.2.1, hf0]
    decide
  · rw [hhi.2.1, hf7]
    decide
  · rw [hlo.2.2.2]
    rfl
  · rw [hhi.2.2.2]
    rfl

/-- C7 counterexample: `update_profile_from_interaction` applied to an
interaction with *no* `theme` and no `learning_focus` does not reject it: the
interaction is appended to the history and the profile is mutated. -/
theorem claim_C7_counterexample :
    c7_interaction.theme = none ∧ c7_interaction.learning_focus = none ∧
    (update_profile_from_interaction c7_profile c7_interaction 5).interaction_history.length
      = 1 ∧
    c7_profile.interaction_history.length = 0 ∧
    update_profile_from_interaction c7_profile c7_interaction 5 ≠ c7_profile := by
  refine ⟨rfl, rfl, rfl, rfl, fun h => ?_⟩
  have hlen := congrArg (fun p => p.interaction_history.length) h
  exact absurd hlen (by decide)

/-- C7 (amended): `update_profile_from_interaction` performs no validation and
never rejects: every interaction — in particular one missing `theme` and
`learning_focus` — is fully applied: it is appended to `interaction_history`,
`last_updated` is stamped, and when `theme` is absent the interest graph is
updated under the default key `"unknown"`. -/
theorem claim_C7 (p : ChildProfile) (i : InteractionData) (now : ℚ) :
    (update_profile_from_interaction p i now).interaction_history
      = p.interaction_history ++ [i] ∧
    (update_profile_from_interaction p i now).last_updated = now ∧
    (i.theme = none →
      alistLookup (update_profile_from_interaction p i now).interest_graph "unknown"
        = some ((alistLookup p.interest_graph "unknown").getD 0 * 0.8 +
            i.engagement_score.getD 0.5 * 0.2)) := by
  refine ⟨rfl, rfl, fun ht => ?_⟩
  show alistLookup
    (update_interest_graph p.interest_graph (i.theme.getD "unknown")
      (i.engagement_score.getD 0.5)) "unknown" = _
  rw [ht]
  exact alistLookup_update_interest_graph p.interest_graph "unknown" _

/-- Witness for the amended C7 at the concrete empty interaction. -/
theorem claim_C7_witness :
    (update_profile_from_interaction c7_profile c7_interaction 5).interaction_history
      = c7_profile.interaction_history ++ [c7_interaction] ∧
    (update_profile_from_interaction c7_profile c7_interaction 5).last_updated = 5 ∧
    alistLookup (update_profile_from_interaction c7_profile c7_interaction 5).interest_graph
        "unknown"
      = some ((alistLookup c7_profile.interest_graph "unknown").getD 0 * 0.8 +
          c7_interaction.engagement_score.getD 0.5 * 0.2) := by
  have h := claim_C7 c7_profile c7_interaction 5
  exact ⟨h.1, h.2.1, h.2.2 rfl⟩

theorem ulm_success_bounds (m : LearningMetrics) (i : InteractionData)
    (hm : metrics_in_bounds m) :
    metrics_in_bounds (ulm_success m i) ∧
    (ulm_success m i).math_level = m.math_level ∧
    (ulm_success m i).vocabulary_level = m.vocabulary_level ∧
    (ulm_success m i).problem_solving_level = m.problem_solving_level := by
  obtain ⟨hs0, hs1, he0, he1, hc0, hc1, hm1, hm4, hv1, hv4, hp1, hp4⟩ := hm
  cases hc : i.correct with
  | none =>
    refine ⟨⟨?_, ?_, ?_, ?_, ?_, ?_, ?_, ?_, ?_, ?_, ?_, ?_⟩, ?_, ?_, ?_⟩ <;>
      simp only [ulm_success, hc] <;> first | assumption | rfl
  | some c =>
    cases c <;>
      (refine ⟨⟨?_, ?_, ?_, ?_, ?_, ?_, ?_, ?_, ?_, ?_, ?_, ?_⟩, ?_, ?_, ?_⟩ <;>
        simp [ulm_success, hc] <;> linarith)

theorem ulm_response_time_fields (m : LearningMetrics) (i : InteractionData) :
    metrics_in_bounds m →
      (metrics_in_bounds (ulm_response_time m i) ∧
      (ulm_response_time m i).math_level = m.math_level ∧
      (ulm_response_time m i).vocabulary_level = m.vocabulary_level ∧
      (ulm_response_time m i).problem_solving_level = m.problem_solving_level) := by
  intro hm
  obtain ⟨hs0, hs1, he0, he1, hc0, hc1, hm1, hm4, hv1, hv4, hp1, hp4⟩ := hm
  cases hc : i.response_time <;>
    (refine ⟨⟨?_, ?_, ?_, ?_, ?_, ?_, ?_, ?_, ?_, ?_, ?_, ?_⟩, ?_, ?_, ?_⟩ <;>
      simp only [ulm_response_time, hc] <;> first | assumption | rfl)

theorem ulm_comprehension_bounds (m : LearningMetrics) (i : InteractionData)
    (hm : metrics_in_bounds m)
    (hi0 : 0 ≤ i.comprehension_score.getD 0) (hi1 : i.comprehension_score.getD 0 ≤ 1) :
    metrics_in_bounds (ulm_comprehension m i) ∧
    (ulm_comprehension m i).math_level = m.math_level ∧
    (ulm_comprehension m i).vocabulary_level = m.vocabulary_level ∧
    (ulm_comprehension m i).problem_solving_level = m.problem_solving_level := by
  obtain ⟨hs0, hs1, he0, he1, hc0, hc1, hm1, hm4, hv1, hv4, hp1, hp4⟩ := hm
  cases hc : i.comprehension_score with
  | none =>
    refine ⟨⟨?_, ?_, ?_, ?_, ?_, ?_, ?_, ?_, ?_, ?_, ?_, ?_⟩, ?_, ?_, ?_⟩ <;>
      simp only [ulm_comprehension, hc] <;> first | assumption | rfl
  | some cs =>
    rw [hc, Option.getD_some] at hi0 hi1
    refine ⟨⟨?_, ?_, ?_, ?_, ?_, ?_, ?_, ?_, ?_, ?_, ?_, ?_⟩, ?_, ?_, ?_⟩ <;>
      simp [ulm_comprehension, hc] <;> linarith

theorem ulm_engagement_bounds (m : LearningMetrics) (i : InteractionData)
    (hm : metrics_in_bounds m)
    (hi0 : 0 ≤ i.engagement_score.getD 0) (hi1 : i.engagement_score.getD 0 ≤ 1) :
    metrics_in_bounds (ulm_engagement m i) ∧
    (ulm_engagement m i).math_level = m.math_level ∧
    (ulm_engagement m i).vocabulary_level = m.vocabulary_level ∧
    (ulm_engagement m i).problem_solving_level = m.problem_solving_level := by
  obtain ⟨hs0, hs1, he0, he1, hc0, hc1, hm1, hm4, hv1, hv4, hp1, hp4⟩ := hm
  cases hc : i.engagement_score with
  | none =>
    refine ⟨⟨?_, ?_, ?_, ?_, ?_, ?_, ?_, ?_, ?_, ?_, ?_, ?_⟩, ?_, ?_, ?_⟩ <;>
      simp only [ulm_engagement, hc] <;> first | assumption | rfl
  | some es =>
    rw [hc, Option.getD_some] at hi0 hi1
    refine ⟨⟨?_, ?_, ?_, ?_, ?_, ?_, ?_, ?_, ?_, ?_, ?_, ?_⟩, ?_, ?_, ?_⟩ <;>
      simp [ulm_engagement, hc] <;> linarith

theorem ulm_skills_bounds (m : LearningMetrics) (i : InteractionData)
    (hm : metrics_in_bounds m) :
    metrics_in_bounds (ulm_skills m i) ∧
    m.math_level ≤ (ulm_skills m i).math_level ∧
    m.vocabulary_level ≤ (ulm_skills m i).vocabulary_level ∧
    m.problem_solving_level ≤ (ulm_skills m i).problem_solving_level := by
  obtain ⟨hs0, hs1, he0, he1, hc0, hc1, hm1, hm4, hv1, hv4, hp1, hp4⟩ := hm
  unfold ulm_skills
  dsimp only
  split_ifs <;>
    refine ⟨⟨?_, ?_, ?_, ?_, ?_, ?_, ?_, ?_, ?_, ?_, ?_, ?_⟩, ?_, ?_, ?_⟩ <;>
    first
      | assumption
      | exact le_refl _
      | exact min_le_left _ _
      | exact le_min (by linarith) (by linarith)
      | linarith

theorem update_learning_metrics_step (m : LearningMetrics) (i : InteractionData)
    (hm : metrics_in_bounds m) (hi : interaction_scores_in_range i) :
    metrics_in_bounds (update_learning_metrics m i) ∧
    m.math_level ≤ (update_learning_metrics m i).math_level ∧
    m.vocabulary_level ≤ (update_learning_metrics m i).vocabulary_level ∧
    m.problem_solving_level ≤ (update_learning_metrics m i).problem_solving_level := by
  obtain ⟨hie0, hie1, hic0, hic1⟩ := hi
  have h1 := ulm_success_bounds m i hm
  have h2 := ulm_response_time_fields (ulm_success m i) i h1.1
  have h3 := ulm_comprehension_bounds (ulm_response_time (ulm_success m i) i) i h2.1
    hic0 hic1
  have h4 := ulm_engagement_bounds
    (ulm_comprehension (ulm_response_time (ulm_success m i) i) i) i h3.1 hie0 hie1
  have h5 := ulm_skills_bounds
    (ulm_engagement (ulm_comprehension (ulm_response_time (ulm_success m i) i) i) i)
    i h4.1
  refine ⟨h5.1, ?_, ?_, ?_⟩
  · calc m.math_level = _ := (h1.2.1).symm
    _ = _ := (h2.2.1).symm
    _ = _ := (h3.2.1).symm
    _ = _ := (h4.2.1).symm
    _ ≤ _ := h5.2.1
  · calc m.vocabulary_level = _ := (h1.2.2.1).symm
    _ = _ := (h2.2.2.1).symm
    _ = _ := (h3.2.2.1).symm
    _ = _ := (h4.2.2.1).symm
    _ ≤ _ := h5.2.2.1
  · calc m.problem_solving_level = _ := (h1.2.2.2).symm
    _ = _ := (h2.2.2.2).symm
    _ = _ := (h3.2.2.2).symm
    _ = _ := (h4.2.2.2).symm
    _ ≤ _ := h5.2.2.2

theorem update_profile_metrics (p : ChildProfile) (i : InteractionData) (now : ℚ) :
    (update_profile_from_interaction p i now).learning_metrics
      = update_learning_metrics p.learning_metrics i := rfl

theorem run_interactions_append (a b : List (InteractionData × ℚ)) :
    ∀ p : ChildProfile, run_interactions p (a ++ b)
      = run_interactions (run_interactions p a) b := by
  induction a with
  | nil => intro p; rfl
  | cons hd tl ih =>
    intro p
    obtain ⟨i, t⟩ := hd
    simp only [List.cons_append, run_interactions]
    exact ih _

theorem run_interactions_bounds (l : List (InteractionData × ℚ)) :
    ∀ p : ChildProfile, metrics_in_bounds p.learning_metrics →
      (∀ x ∈ l, interaction_scores_in_range x.1) →
      metrics_in_bounds (run_interactions p l).learning_metrics ∧
      p.learning_metrics.math_level
        ≤ (run_interactions p l).learning_metrics.math_level ∧
      p.learning_metrics.vocabulary_level
        ≤ (run_interactions p l).learning_metrics.vocabulary_level ∧
      p.learning_metrics.problem_solving_level
        ≤ (run_interactions p l).learning_metrics.problem_solving_level := by
  induction l with
  | nil =>
    intro p hp _
    exact ⟨hp, le_refl _, le_refl _, le_refl _⟩
  | cons hd tl ih =>
    intro p hp hl
    obtain ⟨i, t⟩ := hd
    have hstep := update_learning_metrics_step p.learning_metrics i hp
      (hl (i, t) (by simp))
    have hrec := ih (update_profile_from_interaction p i t)
      (by rw [update_profile_metrics]; exact hstep.1)
      (fun x hx => hl x (by simp [hx]))
    exact ⟨hrec.1, le_trans hstep.2.1 hrec.2.1, le_trans hstep.2.2.1 hrec.2.2.1,
      le_trans hstep.2.2.2 hrec.2.2.2⟩

/-- C8: starting from a profile whose metrics satisfy the bounds invariant,
every prefix of a sequence of `update_profile_from_interaction` calls (with
interaction scores in their declared 0–1 ranges) keeps `successRate`,
`engagementLevel` and `comprehensionScore` in [0,1] and the three skill levels
in [1,4]; and each single update never decreases a skill level. -/
theorem claim_C8 (p : ChildProfile) (l : List (InteractionData × ℚ))
    (hp : metrics_in_bounds p.learning_metrics)
    (hl : ∀ x ∈ l, interaction_scores_in_range x.1) :
    (∀ pre, pre <+: l → metrics_in_bounds (run_interactions p pre).learning_metrics) ∧
    (∀ pre x, pre ++ [x] <+: l →
      (run_interactions p pre).learning_metrics.math_level
        ≤ (run_interactions p (pre ++ [x])).learning_metrics.math_level ∧
      (run_interactions p pre).learning_metrics.vocabulary_level
        ≤ (run_interactions p (pre ++ [x])).learning_metrics.vocabulary_level ∧
      (run_interactions p pre).learning_metrics.problem_solving_level
        ≤ (run_interactions p (pre ++ [x])).learning_metrics.problem_solving_level) := by
  have hsub : ∀ pre, pre <+: l → ∀ x ∈ pre, interaction_scores_in_range x.1 :=
    fun pre hpre x hx => hl x (hpre.sublist.subset hx)
  constructor
  · intro pre hpre
    exact (run_interactions_bounds pre p hp (hsub pre hpre)).1
  · intro pre x hpre
    have hpre0 : pre <+: l := (List.prefix_append pre [x]).trans hpre
    have hb := run_interactions_bounds pre p hp (hsub pre hpre0)
    have hxl : interaction_scores_in_range x.1 :=
      hl x (hpre.sublist.subset (by simp))
    have hstep := update_learning_metrics_step
      (run_interactions p pre).learning_metrics x.1 hb.1 hxl
    rw [run_interactions_append]
    obtain ⟨i, t⟩ := x
    exact ⟨hstep.2.1, hstep.2.2.1, hstep.2.2.2⟩

/-- Witness for C8: one in-range math interaction on a fresh profile. -/
theorem claim_C8_witness :
    metrics_in_bounds (run_interactions c8_profile [(c8_interaction, 1)]).learning_metrics ∧
    c8_profile.learning_metrics.math_level
      ≤ (run_interactions c8_profile [(c8_interaction, 1)]).learning_metrics.math_level := by
  have hp : metrics_in_bounds c8_profile.learning_metrics := by
    norm_num [metrics_in_bounds, c8_profile]
  have hl : ∀ x ∈ [(c8_interaction, (1:ℚ))], interaction_scores_in_range x.1 := by
    intro x hx
    simp only [List.mem_singleton] at hx
    subst hx
    norm_num [interaction_scores_in_range, c8_interaction]
  have h := claim_C8 c8_profile [(c8_interaction, 1)] hp hl
  refine ⟨h.1 [(c8_interaction, 1)] ⟨[], List.append_nil _⟩, ?_⟩
  exact (h.2 [] (c8_interaction, 1) (by simp)).1

theorem award_loop_eq (crit : String → Bool) :
    ∀ ids news ach : List String,
      award_loop crit ids news ach
        = (news ++ awarded crit ids ach, ach ++ awarded crit ids ach) := by
  intro ids
  induction ids with
  | nil =>
    intro news ach
    simp [award_loop, awarded]
  | cons id rest ih =>
    intro news ach
    by_cases h : id ∉ ach ∧ crit id = true
    · simp only [award_loop, awarded, if_pos h]
      rw [ih]
      simp
    · simp only [award_loop, awarded, if_neg h]
      exact ih news ach

theorem awarded_nodup (crit : String → Bool) :
    ∀ ids ach : List String, ach.Nodup → (ach ++ awarded crit ids ach).Nodup := by
  intro ids
  induction ids with
  | nil =>
    intro ach h
    simpa [awarded] using h
  | cons id rest ih =>
    intro ach h
    by_cases hc : id ∉ ach ∧ crit id = true
    · simp only [awarded, if_pos hc]
      have h2 : (ach ++ [id]).Nodup := by
        rw [List.nodup_append]
        refine ⟨h, List.nodup_singleton _, ?_⟩
        intro a ha hb
        rw [List.mem_singleton] at hb
        subst hb
        exact hc.1 ha
      have h3 := ih (ach ++ [id]) h2
      rw [show ach ++ id :: awarded crit rest (ach ++ [id])
          = (ach ++ [id]) ++ awarded crit rest (ach ++ [id]) by simp]
      exact h3
    · simp only [awarded, if_neg hc]
      exact ih ach h

theorem count_awarded_of_mem (crit : String → Bool) (aid : String) :
    ∀ ids ach : List String, aid ∈ ach → (awarded crit ids ach).count aid = 0 := by
  intro ids
  induction ids with
  | nil =>
    intro ach _
    simp [awarded]
  | cons id rest ih =>
    intro ach h
    by_cases hc : id ∉ ach ∧ crit id = true
    · simp only [awarded, if_pos hc]
      have hne : aid ≠ id := fun he => hc.1 (he ▸ h)
      rw [List.count_cons_of_ne hne]
      exact ih (ach ++ [id]) (List.mem_append_left _ h)
    · simp only [awarded, if_neg hc]
      exact ih ach h

theorem count_awarded_eq_one (crit : String → Bool) (aid : String) :
    ∀ ids ach : List String, aid ∉ ach → crit aid = true → aid ∈ ids →
      (awarded crit ids ach).count aid = 1 := by
  intro ids
  induction ids with
  | nil =>
    intro ach _ _ h
    simp at h
  | cons id rest ih =>
    intro ach hna hcrit hmem
    by_cases heq : id = aid
    · subst heq
      have hc : id ∉ ach ∧ crit id = true := ⟨hna, hcrit⟩
      simp only [awarded, if_pos hc]
      rw [List.count_cons_self, count_awarded_of_mem crit id rest (ach ++ [id]) (by simp)]
    · have hmem2 : aid ∈ rest := by
        rcases List.mem_cons.mp hmem with h | h
        · exact absurd h.symm heq
        · exact h
      by_cases hc : id ∉ ach ∧ crit id = true
      · simp only [awarded, if_pos hc]
        rw [List.count_cons_of_ne (fun he => heq he.symm)]
        refine ih (ach ++ [id]) ?_ hcrit hmem2
        simp only [List.mem_append, List.mem_singleton]
        rintro (h | h)
        · exact hna h
        · exact heq h.symm
      · simp only [awarded, if_neg hc]
        exact ih ach hna hcrit hmem2

theorem check_unlocks_eq (q : ChildProfile) (i : InteractionData) (today : String) :
    (check_for_new_achievements q i today).1
      = awarded (fun id => check_achievement_criteria id (stats_updated_profile q i today))
          achievement_ids q.achievements := by
  simp only [check_for_new_achievements, award_loop_eq]
  rfl

theorem check_ach_eq (q : ChildProfile) (i : InteractionData) (today : String) :
    (check_for_new_achievements q i today).2.achievements
      = q.achievements ++ (check_for_new_achievements q i today).1 := by
  simp only [check_for_new_achievements, award_loop_eq]
  rfl

theorem check_nodup (q : ChildProfile) (i : InteractionData) (today : String)
    (h : q.achievements.Nodup) :
    (check_for_new_achievements q i today).2.achievements.Nodup := by
  rw [check_ach_eq, check_unlocks_eq]
  exact awarded_nodup _ achievement_ids q.achievements h

theorem run_ach_decomp (l : List (InteractionData × String)) :
    ∀ p : ChildProfile,
      (run_achievements p l).2.achievements
        = p.achievements ++ ((run_achievements p l).1).join := by
  induction l with
  | nil =>
    intro p
    simp [run_achievements]
  | cons hd tl ih =>
    intro p
    obtain ⟨i, today⟩ := hd
    simp only [run_achievements]
    rw [ih, check_ach_eq]
    simp

theorem run_ach_nodup (l : List (InteractionData × String)) :
    ∀ p : ChildProfile, p.achievements.Nodup →
      (run_achievements p l).2.achievements.Nodup := by
  induction l with
  | nil =>
    intro p h
    simpa [run_achievements] using h
  | cons hd tl ih =>
    intro p h
    obtain ⟨i, today⟩ := hd
    simp only [run_achievements]
    exact ih _ (check_nodup p i today h)

theorem lookup_isSome_mem :
    ∀ (m : List (String × Bool)) (a : String),
      (m.lookup a).isSome = true → a ∈ m.map Prod.fst := by
  intro m
  induction m with
  | nil =>
    intro a h
    simp [List.lookup] at h
  | cons hd tl ih =>
    intro a h
    obtain ⟨k, v⟩ := hd
    by_cases hk : a = k
    · simp [hk]
    · have hbeq : (a == k) = false := by simp [hk]
      simp only [List.lookup, hbeq] at h
      simp only [List.map_cons, List.mem_cons]
      exact Or.inr (ih a h)

theorem criteria_mem (aid : String) (q : ChildProfile) :
    check_achievement_criteria aid q = true → aid ∈ achievement_ids := by
  intro h
  unfold check_achievement_criteria at h
  cases hs : q.achievement_stats with
  | none =>
    rw [hs] at h
    have h2 : false = true := h
    exact absurd h2 (by decide)
  | some stats =>
    rw [hs] at h
    have h2 : ((criteria_map q stats).lookup aid).getD false = true := h
    have hsome : ((criteria_map q stats).lookup aid).isSome = true := by
      cases hl : (criteria_map q stats).lookup aid with
      | none =>
        rw [hl] at h2
        have h3 : false = true := h2
        exact absurd h3 (by decide)
      | some b => simp
    have hmem := lookup_isSome_mem (criteria_map q stats) aid hsome
    have hkeys : (criteria_map q stats).map Prod.fst = achievement_ids := rfl
    rwa [hkeys] at hmem

/-- C3: across any sequence of `check_for_new_achievements` calls on a profile
whose `achievements` list starts duplicate-free, the list stays duplicate-free
at every point, the final list is the initial one plus the concatenation of
the per-call unlock batches, those batches never contain a duplicate
identifier or an already-held identifier, a call whose updated stats satisfy a
not-yet-held achievement's criteria produces exactly one unlock record for
that identifier, and a call on a profile already holding the identifier
produces zero unlocks for it. -/
theorem claim_C3 (p : ChildProfile) (l : List (InteractionData × String))
    (hp : p.achievements.Nodup) :
    (∀ pre, pre <+: l → ((run_achievements p pre).2.achievements).Nodup) ∧
    ((run_achievements p l).2.achievements
      = p.achievements ++ ((run_achievements p l).1).join) ∧
    (((run_achievements p l).1).join).Nodup ∧
    (∀ aid ∈ ((run_achievements p l).1).join, aid ∉ p.achievements) ∧
    (∀ (q : ChildProfile) (i : InteractionData) (today aid : String),
      q.achievements.Nodup → aid ∉ q.achievements →
      check_achievement_criteria aid (stats_updated_profile q i today) = true →
      (check_for_new_achievements q i today).1.count aid = 1 ∧
        aid ∈ (check_for_new_achievements q i today).2.achievements) ∧
    (∀ (q : ChildProfile) (i : InteractionData) (today aid : String),
      aid ∈ q.achievements →
      (check_for_new_achievements q i today).1.count aid = 0 ∧
        aid ∈ (check_for_new_achievements q i today).2.achievements) := by
  have hfin : ((run_achievements p l).2.achievements).Nodup := run_ach_nodup l p hp
  have hdec := run_ach_decomp l p
  have hsplit := List.nodup_append.mp (hdec ▸ hfin)
  refine ⟨?_, hdec, hsplit.2.1, ?_, ?_, ?_⟩
  · intro pre _
    exact run_ach_nodup pre p hp
  · intro aid hmem hmem2
    exact hsplit.2.2 hmem2 hmem
  · intro q i today aid hq hna hcrit
    have hin : aid ∈ achievement_ids := criteria_mem aid _ hcrit
    constructor
    · rw [check_unlocks_eq]
      exact count_awarded_eq_one _ aid achievement_ids q.achievements hna hcrit hin
    · rw [check_ach_eq]
      refine List.mem_append_right _ ?_
      have h1 : (check_for_new_achievements q i today).1.count aid = 1 := by
        rw [check_unlocks_eq]
        exact count_awarded_eq_one _ aid achievement_ids q.achievements hna hcrit hin
      by_contra hno
      rw [List.count_eq_zero_of_not_mem hno] at h1
      exact absurd h1 (by decide)
  · intro q i today aid hmem
    constructor
    · rw [check_unlocks_eq]
      exact count_awarded_of_mem _ aid achievement_ids q.achievements hmem
    · rw [check_ach_eq]
      exact List.mem_append_left _ hmem

/-- Witness for C3: Scenario E — five correct math interactions unlock
`math_master_beginner` exactly once at the 5th call; a 6th identical call
produces zero further unlocks; no duplicate ever appears. -/
theorem claim_C3_witness :
    (((run_achievements c3_profile c3_events).1).join).Nodup ∧
    (check_for_new_achievements c3_q4 c3_math_interaction "2025-01-01").1.count
        "math_master_beginner" = 1 ∧
    "math_master_beginner"
      ∈ (check_for_new_achievements c3_q4 c3_math_interaction "2025-01-01").2.achievements ∧
    (check_for_new_achievements c3_q5 c3_math_interaction "2025-01-01").1.count
        "math_master_beginner" = 0 := by
  have h := claim_C3 c3_profile c3_events (by decide)
  have h5 := h.2.2.2.2.1 c3_q4 c3_math_interaction "2025-01-01" "math_master_beginner"
    (by decide) (by decide) (by rfl)
  have h6 := h.2.2.2.2.2 c3_q5 c3_math_interaction "2025-01-01" "math_master_beginner"
    (by decide)
  exact ⟨h.2.2.1, h5.1, h5.2, h6.1⟩

theorem c5_adjust_excited :
    apply_contextual_adjustments (compute_emotion_scores c5_interaction) c5_interaction
      ["excited"] EmotionState.EXCITED
      = compute_emotion_scores c5_interaction EmotionState.EXCITED * 1.1 := rfl

theorem c5_adjust_curious :
    apply_contextual_adjustments (compute_emotion_scores c5_interaction) c5_interaction
      ["excited"] EmotionState.CURIOUS
      = compute_emotion_scores c5_interaction EmotionState.CURIOUS := rfl

theorem c5_adjust_confident :
    apply_contextual_adjustments (compute_emotion_scores c5_interaction) c5_interaction
      ["excited"] EmotionState.CONFIDENT
      = compute_emotion_scores c5_interaction EmotionState.CONFIDENT * 1.3 := rfl

theorem c5_adjust_frustrated :
    apply_contextual_adjustments (compute_emotion_scores c5_interaction) c5_interaction
      ["excited"] EmotionState.FRUSTRATED
      = compute_emotion_scores c5_interaction EmotionState.FRUSTRATED * 0.7 := rfl

theorem c5_adjust_bored :
    apply_contextual_adjustments (compute_emotion_scores c5_interaction) c5_interaction
      ["excited"] EmotionState.BORED
      = compute_emotion_scores c5_interaction EmotionState.BORED := rfl

theorem c5_raw_excited :
    compute_emotion_scores c5_interaction EmotionState.EXCITED
      = 0.4 * (((5 : ℕ) : ℚ) / ((8 : ℕ) : ℚ)) + min 1 (0 + 0.3 + 0.3) * 0.6 := rfl

theorem c5_raw_curious :
    compute_emotion_scores c5_interaction EmotionState.CURIOUS
      = 0 + min 1 0 * 0.6 := rfl

theorem c5_raw_confident :
    compute_emotion_scores c5_interaction EmotionState.CONFIDENT
      = 0 + min 1 (0 + 0.4) * 0.6 := rfl

theorem c5_raw_frustrated :
    compute_emotion_scores c5_interaction EmotionState.FRUSTRATED
      = 0 + min 1 0 * 0.6 := rfl

theorem c5_raw_bored :
    compute_emotion_scores c5_interaction EmotionState.BORED
      = 0 + min 1 0 * 0.6 := rfl

theorem c5_score_excited :
    apply_contextual_adjustments (compute_emotion_scores c5_interaction) c5_interaction
      ["excited"] EmotionState.EXCITED = 0.671 := by
  rw [c5_adjust_excited, c5_raw_excited, min_def]
  norm_num

theorem c5_score_curious :
    apply_contextual_adjustments (compute_emotion_scores c5_interaction) c5_interaction
      ["excited"] EmotionState.CURIOUS = 0 := by
  rw [c5_adjust_curious, c5_raw_curious, min_def]
  norm_num

theorem c5_score_confident :
    apply_contextual_adjustments (compute_emotion_scores c5_interaction) c5_interaction
      ["excited"] EmotionState.CONFIDENT = 0.312 := by
  rw [c5_adjust_confident, c5_raw_confident, min_def]
  norm_num

theorem c5_score_frustrated :
    apply_contextual_adjustments (compute_emotion_scores c5_interaction) c5_interaction
      ["excited"] EmotionState.FRUSTRATED = 0 := by
  rw [c5_adjust_frustrated, c5_raw_frustrated, min_def]
  norm_num

theorem c5_score_bored :
    apply_contextual_adjustments (compute_emotion_scores c5_interaction) c5_interaction
      ["excited"] EmotionState.BORED = 0 := by
  rw [c5_adjust_bored, c5_raw_bored, min_def]
  norm_num

theorem c5_adjust_neutral :
    apply_contextual_adjustments (compute_emotion_scores c5_interaction) c5_interaction
      ["excited"] EmotionState.NEUTRAL
      = compute_emotion_scores c5_interaction EmotionState.NEUTRAL := rfl

theorem c5_raw_neutral :
    compute_emotion_scores c5_interaction EmotionState.NEUTRAL
      = 0 + min 1 0 * 0.6 := rfl

theorem c5_score_neutral :
    apply_contextual_adjustments (compute_emotion_scores c5_interaction) c5_interaction
      ["excited"] EmotionState.NEUTRAL = 0 := by
  rw [c5_adjust_neutral, c5_raw_neutral, min_def]
  norm_num

theorem c5_scores_fun :
    apply_contextual_adjustments (compute_emotion_scores c5_interaction) c5_interaction
        ["excited"]
      = fun e => match e with
        | EmotionState.EXCITED => (0.671 : ℚ)
        | EmotionState.CURIOUS => 0
        | EmotionState.CONFIDENT => 0.312
        | EmotionState.FRUSTRATED => 0
        | EmotionState.BORED => 0
        | EmotionState.NEUTRAL => 0 := by
  funext e
  cases e
  case EXCITED => exact c5_score_excited
  case CURIOUS => exact c5_score_curious
  case CONFIDENT => exact c5_score_confident
  case FRUSTRATED => exact c5_score_frustrated
  case BORED => exact c5_score_bored
  case NEUTRAL => exact c5_score_neutral

/-- C5: momentum counterexample input. With history `["excited"]` the code's
`recent_emotion in emotion_scores` test compares a `str` against `EmotionState`
dict keys, so the specified ×1.2 momentum boost is never applied: the excited
score stays at 0.61·1.1 = 0.671 < 0.7 and `detect_emotion` returns NEUTRAL,
while the boost the claim describes would give 0.61·1.2·1.1 = 0.8052 ≥ 0.7 and
an EXCITED result. -/
theorem claim_C5 :
    detect_emotion c5_interaction ["excited"] = EmotionState.NEUTRAL ∧
    apply_contextual_adjustments (compute_emotion_scores c5_interaction) c5_interaction
        ["excited"] EmotionState.EXCITED
      = compute_emotion_scores c5_interaction EmotionState.EXCITED * 1.1 ∧
    compute_emotion_scores c5_interaction EmotionState.EXCITED = 0.61 ∧
    emotion_threshold EmotionState.EXCITED = 0.7 ∧
    (0.7 : ℚ) ≤ 0.61 * 1.2 * 1.1 := by
  refine ⟨?_, c5_adjust_excited, ?_, rfl, by norm_num⟩
  · show (if apply_contextual_adjustments (compute_emotion_scores c5_interaction)
          c5_interaction ["excited"]
          (dominant_emotion (apply_contextual_adjustments
            (compute_emotion_scores c5_interaction) c5_interaction ["excited"]))
        ≥ emotion_threshold (dominant_emotion (apply_contextual_adjustments
            (compute_emotion_scores c5_interaction) c5_interaction ["excited"])) then
      dominant_emotion (apply_contextual_adjustments
        (compute_emotion_scores c5_interaction) c5_interaction ["excited"])
      else EmotionState.NEUTRAL) = EmotionState.NEUTRAL
    rw [c5_scores_fun]
    norm_num [dominant_emotion, emotion_threshold]
  · rw [c5_raw_excited, min_def]
    norm_num

end Ainia
